import Mathlib

/-!
# MirAI cascade inference engine — a shallow embedding

This file embeds the core of the MirAI Alzheimer's-screening repository
(`app.py` and `backend/mirai_inference.py`) in Lean 4 and proves or refutes
the specification's claims about it.

Embedding conventions:
* Python floats and ints are modelled as `ℚ` and `ℤ` (exact arithmetic;
  floating-point rounding is out of scope of the claims checked here).
* A Python value that may be a number, a string or `None` is the inductive
  type `Value`; a Python dict used as a patient record is a partial map
  `PRecord := String → Option Value`, where `Option.none` means the key is
  absent and `some Value.none` means the key is present with value `None`.
* `dict.get(k, d)` is `dictGet`, `d[k] = v` is `dictSet`.
* Python `round` (banker's rounding, round-half-to-even) is `pyRound`.
* `float(x)` / `int(x)` applied to a `Value` are the fallible `pyFloat` /
  `pyInt` (they raise on `None`; parsing of numeric strings is not modelled,
  no checked claim exercises it).
* The opaque sklearn pipelines (`predict_proba(X)[0, 1]`) are modelled as
  arbitrary fallible functions from feature vectors to rationals
  (`Predictor`); Python string rendering of a number in an f-string is
  abstracted as the canonical rendering `dispQ` of the rational.
-/

set_option autoImplicit false

-- The Batteries rational-arithmetic primitives are `@[irreducible]`, which
-- blocks `decide` on concrete rational computations; restore the default
-- reducibility so concrete instances of the embedded functions evaluate.
set_option allowUnsafeReducibility true
attribute [semireducible] Rat.sub Rat.mul Rat.add Rat.inv

deriving instance DecidableEq for Except

/-- A Python value appearing in a patient record: `None`, a number, or a
string. -/
inductive Value where
  | none : Value
  | num (q : ℚ) : Value
  | str (s : String) : Value
  deriving DecidableEq, Repr

/-- Python truthiness of a `Value`: `None` is falsy, a number is truthy iff
nonzero, a string is truthy iff nonempty. -/
def Value.truthy : Value → Bool
  | Value.none => false
  | Value.num q => q ≠ 0
  | Value.str s => s ≠ ""

/-- Canonical rendering of a rational, standing in for Python `str` of a
number inside an f-string. -/
def dispQ (q : ℚ) : String :=
  if q.den = 1 then toString q.num else toString q.num ++ "/" ++ toString q.den

/-- Rendering of a `Value` inside a Python f-string. -/
def Value.display : Value → String
  | Value.none => "None"
  | Value.num q => dispQ q
  | Value.str s => s

/-- A patient record: a Python dict from attribute name to value.
`Option.none` = key absent; `some Value.none` = key present, value `None`. -/
def PRecord : Type := String → Option Value

/-- Python `d.get(k, default)`: the stored value when the key is present
(even when that value is `None`), the default otherwise. -/
def dictGet (r : PRecord) (k : String) (d : Value) : Value :=
  (r k).getD d

/-- Python `d[k] = v`. -/
def dictSet (r : PRecord) (k : String) (v : Value) : PRecord :=
  fun q => if q = k then some v else r q

/-- The empty record. -/
def emptyRec : PRecord := fun _ => Option.none

/-- Number of occurrences of a character in a string (Python
`s.count(c)` for a single-character needle). -/
def countChar (s : String) (c : Char) : ℕ :=
  s.data.count c

/-- Python `round`: round half to even, returning an integer.  Written with
the executable `Rat.floor` so that concrete instances evaluate by `decide`. -/
def pyRound (q : ℚ) : ℤ :=
  let f := Rat.floor q
  let r := q - f
  if r < 1 / 2 then f
  else if 1 / 2 < r then f + 1
  else if f % 2 = 0 then f else f + 1

/-- Python `int(x)` on a numeric value truncates toward zero; on `None` or a
string it is modelled as raising (numeric-string parsing not modelled). -/
def pyInt (v : Value) : Except Unit ℤ :=
  match v with
  | Value.num q => Except.ok (if 0 ≤ q then Rat.floor q else -Rat.floor (-q))
  | _ => Except.error ()

/-- Python `float(x)` on a numeric value; on `None` or a string it is
modelled as raising (numeric-string parsing not modelled). -/
def pyFloat (v : Value) : Except Unit ℚ :=
  match v with
  | Value.num q => Except.ok q
  | _ => Except.error ()

/-! ## Feature normalizers (`mirai_inference.py`) -/

/-- Python `s.lower()` (ASCII case folding, which is all the source
exercises), written over the character list so concrete instances
evaluate. -/
def pyLower (s : String) : String :=
  String.mk (s.data.map Char.toLower)

/-- Embeds `MirAI_System.preprocess_gender`: a string maps to 1 when it
case-insensitively equals "male" and to 0 otherwise; any non-string input is
returned unchanged. -/
def preprocess_gender (gender : Value) : Value :=
  match gender with
  | Value.str s => if pyLower s = "male" then Value.num 1 else Value.num 0
  | v => v

/-- Embeds `MirAI_System.preprocess_apoe4`: a string maps to its count of
`'4'` characters; otherwise the value itself when truthy, else 0. -/
def preprocess_apoe4 (genotype : Value) : Value :=
  match genotype with
  | Value.str s => Value.num (countChar s '4')
  | v => if v.truthy then v else Value.num 0

/-- Embeds `app.parse_apoe4`: falsy input gives 0; a string gives its count
of `'4'` characters; a truthy non-string raises (`.count` attribute error). -/
def parse_apoe4 (genotype : Value) : Except Unit ℚ :=
  if genotype.truthy then
    match genotype with
    | Value.str s => Except.ok (countChar s '4')
    | _ => Except.error ()
  else Except.ok 0

/-! ## Fallback heuristic predictor (`app.mock_prediction`) -/

/-- The output record of `mock_prediction` (it has no
`final_risk_category` field, unlike the real engine's result). -/
structure MockResult where
  final_risk_score : ℚ
  stage1_prob : ℚ
  stage2_prob : ℚ
  stage3_prob : ℚ
  stage1_risk : String
  stage2_risk : String
  stage3_risk : String
  top_factors : List String
  deriving DecidableEq, Repr

/-- The clamped integer score computed by `app.mock_prediction`.  Mirrors
the source line by line: base score 15, the age bonus, `score += faq * 1.5`,
`score += (ecog - 1) * 10`, `score += apoe4 * 12`, the pTau bonus, and
finally `score = min(round(score), 100)`. -/
def mockScore (age : ℤ) (faq ecog : ℚ) (apoe4 : ℤ) (ptau : ℚ) : ℤ :=
  let score0 : ℚ := 15
  let score1 := if 75 < age then score0 + 20
                else if 65 < age then score0 + 10 else score0
  let score2 := score1 + faq * (3 / 2)
  let score3 := score2 + (ecog - 1) * 10
  let score4 := score3 + (apoe4 : ℚ) * 12
  let score5 := if 3 / 5 < ptau then score4 + 20
                else if 3 / 10 < ptau then score4 + 10 else score4
  min (pyRound score5) 100

/-- The dict returned by `app.mock_prediction`, after the five field
extractions have succeeded. -/
def mockResultOf (age : ℤ) (faq ecog : ℚ) (apoe4 : ℤ) (ptau : ℚ) :
    MockResult :=
  let score : ℤ := mockScore age faq ecog apoe4 ptau
  { final_risk_score := (score : ℚ) / 100
    stage1_prob := min ((score : ℚ) * (4 / 5)) 95 / 100
    stage2_prob := min ((score : ℚ) * (9 / 10)) 98 / 100
    stage3_prob := (score : ℚ) / 100
    stage1_risk := if score < 30 then "Low"
                   else if score < 60 then "Elevated" else "High"
    stage2_risk := if 0 < apoe4 then "Elevated" else "Low"
    stage3_risk := if 1 / 2 < ptau then "Elevated"
                   else if 0 < ptau then "Normal" else "Not Tested"
    top_factors :=
      ["FAQ Score: " ++ dispQ faq,
       "APOE4 Count: " ++ toString apoe4,
       "pTau-217: " ++ (if 0 < ptau then dispQ ptau else "Not provided")] }

/-- Embeds `app.mock_prediction`.  Field extraction follows the source:
`int(data.get('AGE', 65))`, `float(data.get('FAQ', 0))`, etc.; any
extraction failure aborts the whole call (Python would raise). -/
def mock_prediction (data : PRecord) : Except Unit MockResult :=
  match pyInt (dictGet data "AGE" (Value.num 65)),
        pyFloat (dictGet data "FAQ" (Value.num 0)),
        pyFloat (dictGet data "EcogPtMem" (Value.num 1)),
        pyInt (dictGet data "APOE4" (Value.num 0)),
        pyFloat (dictGet data "PTAU" (Value.num 0)) with
  | Except.ok age, Except.ok faq, Except.ok ecog, Except.ok apoe4,
    Except.ok ptau => Except.ok (mockResultOf age faq ecog apoe4 ptau)
  | _, _, _, _, _ => Except.error ()

/-- A record holding the five fields `mock_prediction` reads, as numbers. -/
def mockRecord (age : ℤ) (faq ecog : ℚ) (apoe4 : ℤ) (ptau : ℚ) : PRecord :=
  fun k =>
    if k = "AGE" then some (Value.num age)
    else if k = "FAQ" then some (Value.num faq)
    else if k = "EcogPtMem" then some (Value.num ecog)
    else if k = "APOE4" then some (Value.num apoe4)
    else if k = "PTAU" then some (Value.num ptau)
    else Option.none

/-! ## The real cascade engine (`mirai_inference.py`) -/

/-- An opaque scored predictor: `pipeline.predict_proba(X)[0, 1]` applied to
a feature vector (an association list of feature name and value).  The call
may raise, hence `Except`. -/
def Predictor : Type := List (String × Value) → Except Unit ℚ

/-- The artifact set held by `MirAI_System` after `load_artifacts`: each of
the 8 artifact files is independently optional.  A threshold artifact is a
JSON object whose `threshold` field may itself be missing, hence the nested
`Option`.  The same structure also models the contents of the artifacts
directory handed to `load_artifacts`. -/
structure MirAI_System where
  stage1_pipeline : Option Predictor
  stage2_pipeline : Option Predictor
  stage3_pipeline : Option Predictor
  stage1_features : Option (List String)
  stage2_features : Option (List String)
  stage3_features : Option (List String)
  stage1_threshold : Option (Option ℚ)
  stage2_threshold : Option (Option ℚ)

/-- Whether the loaded artifacts dict is empty, i.e. none of the 8 files
existed (`if not self.artifacts`). -/
def MirAI_System.isEmpty (s : MirAI_System) : Bool :=
  s.stage1_pipeline.isNone && s.stage2_pipeline.isNone &&
  s.stage3_pipeline.isNone && s.stage1_features.isNone &&
  s.stage2_features.isNone && s.stage3_features.isNone &&
  s.stage1_threshold.isNone && s.stage2_threshold.isNone

/-- Embeds `MirAI_System.load_artifacts`: each of the 8 named artifact files
present in the directory is loaded into the store; if none existed the
constructor raises (`FileNotFoundError`, the spec's `ArtifactLoadError`)
with the message below. -/
def load_artifacts (dir : MirAI_System) : Except String MirAI_System :=
  if dir.isEmpty then Except.error "No artifacts found" else Except.ok dir

/-- Embeds `self.artifacts.get('stageN_threshold', \x7b\x7d).get('threshold', 0.5)`. -/
def getThreshold (art : Option (Option ℚ)) : ℚ :=
  (art.getD Option.none).getD (1 / 2)

/-- The hardcoded default Stage 1 feature list. -/
def defaultStage1Features : List String :=
  ["AGE", "PTGENDER", "PTEDUCAT", "FAQ", "EcogPtMem", "EcogPtTotal"]

/-- Embeds the in-place normalization performed at the top of `predict`:
`patient_data['PTGENDER'] = preprocess_gender(patient_data.get('PTGENDER', 'Male'))`
then
`patient_data['APOE4'] = preprocess_apoe4(patient_data.get('APOE4', 0))`. -/
def preprocessRecord (r : PRecord) : PRecord :=
  let r1 := dictSet r "PTGENDER"
    (preprocess_gender (dictGet r "PTGENDER" (Value.str "Male")))
  dictSet r1 "APOE4" (preprocess_apoe4 (dictGet r1 "APOE4" (Value.num 0)))

/-- The Stage 1 feature vector: `{f: patient_data.get(f, 0) for f in
stage1_features}`. -/
def buildX1 (feats : List String) (pd : PRecord) : List (String × Value) :=
  feats.map (fun f => (f, dictGet pd f (Value.num 0)))

/-- The Stage 2 feature vector, built from a literal dict (the loaded
`stage2_features` list is never consulted in the source). -/
def buildX2 (stage1_prob : ℚ) (pd : PRecord) : List (String × Value) :=
  [("Stage1_Prob", Value.num stage1_prob),
   ("APOE4", dictGet pd "APOE4" (Value.num 0))]

/-- The Stage 3 feature vector, built from a literal dict (the loaded
`stage3_features` list is never consulted in the source). -/
def buildX3 (stage2_prob : ℚ) (pd : PRecord) : List (String × Value) :=
  [("Stage2_Prob", Value.num stage2_prob),
   ("PTAU", dictGet pd "PTAU" (Value.num 0)),
   ("ABETA42", dictGet pd "ABETA42" (Value.num 0)),
   ("ABETA40", dictGet pd "ABETA40" (Value.num 0)),
   ("NFL", dictGet pd "NFL" (Value.num 0))]

/-- A stage's risk label from its probability and effective threshold:
`'Elevated' if prob >= threshold else 'Low'`. -/
def stageRisk (prob threshold : ℚ) : String :=
  if threshold ≤ prob then "Elevated" else "Low"

/-- The final categorization: fixed cut-points 0.7 and 0.4 on
`stage3_prob`. -/
def finalCat (stage3_prob : ℚ) : String :=
  if 7 / 10 ≤ stage3_prob then "High"
  else if 2 / 5 ≤ stage3_prob then "Elevated"
  else "Low"

/-- The error raised when a stage fails: in the source, a missing pipeline
raises `KeyError('stageN_pipeline')` and a failing `predict_proba` raises
whatever the pipeline raises; both identify the stage. -/
inductive PredictError where
  | missingPredictor (stage : ℕ) : PredictError
  | predictionError (stage : ℕ) : PredictError
  deriving DecidableEq, Repr

/-- The stage index an error refers to. -/
def PredictError.stage : PredictError → ℕ
  | PredictError.missingPredictor s => s
  | PredictError.predictionError s => s

/-- The output record of the real engine's `predict`. -/
structure CascadeResult where
  final_risk_score : ℚ
  final_risk_category : String
  stage1_prob : ℚ
  stage2_prob : ℚ
  stage3_prob : ℚ
  stage1_risk : String
  stage2_risk : String
  stage3_risk : String
  top_factors : List String
  deriving DecidableEq, Repr

/-- The `top_factors` list assembled from the (preprocessed) record:
`patient_data.get('FAQ', 'N/A')`, `patient_data.get('APOE4', 0)`,
`patient_data.get('PTAU', 'Not provided')`, rendered in an f-string. -/
def topFactorsOf (pd : PRecord) : List String :=
  ["FAQ Score: " ++ (dictGet pd "FAQ" (Value.str "N/A")).display,
   "APOE4 Count: " ++ (dictGet pd "APOE4" (Value.num 0)).display,
   "pTau-217: " ++ (dictGet pd "PTAU" (Value.str "Not provided")).display]

/-- The result dict returned on the success path of `predict`. -/
def assembleResult (pd : PRecord) (p1 : ℚ) (r1 : String) (p2 : ℚ)
    (r2 : String) (p3 : ℚ) : CascadeResult :=
  { final_risk_score := p3
    final_risk_category := finalCat p3
    stage1_prob := p1
    stage2_prob := p2
    stage3_prob := p3
    stage1_risk := r1
    stage2_risk := r2
    stage3_risk := finalCat p3
    top_factors := topFactorsOf pd }

/-- The three predictor invocations of `predict`, on the already-normalized
record `pd`.  Mirrors the source line by line: stage N's pipeline is fetched
(`KeyError` if absent), applied to the stage's feature vector (aborting on
failure), thresholds for stages 1 and 2 produce the stage risk labels, and
the final categorization uses the fixed cut-points. -/
def MirAI_cascade (self : MirAI_System) (pd : PRecord) :
    Except PredictError CascadeResult :=
  match self.stage1_pipeline with
  | Option.none => Except.error (PredictError.missingPredictor 1)
  | Option.some pred1 =>
    match pred1 (buildX1 (self.stage1_features.getD defaultStage1Features) pd) with
    | Except.error _ => Except.error (PredictError.predictionError 1)
    | Except.ok stage1_prob =>
      match self.stage2_pipeline with
      | Option.none => Except.error (PredictError.missingPredictor 2)
      | Option.some pred2 =>
        match pred2 (buildX2 stage1_prob pd) with
        | Except.error _ => Except.error (PredictError.predictionError 2)
        | Except.ok stage2_prob =>
          match self.stage3_pipeline with
          | Option.none => Except.error (PredictError.missingPredictor 3)
          | Option.some pred3 =>
            match pred3 (buildX3 stage2_prob pd) with
            | Except.error _ => Except.error (PredictError.predictionError 3)
            | Except.ok stage3_prob =>
              Except.ok (assembleResult pd
                stage1_prob (stageRisk stage1_prob (getThreshold self.stage1_threshold))
                stage2_prob (stageRisk stage2_prob (getThreshold self.stage2_threshold))
                stage3_prob)

/-- Embeds `MirAI_System.predict`.  The first component is the state of the
caller's `patient_data` dict after the call (the method mutates it in place
before any fallible step); the second is the returned result or the raised
error. -/
def MirAI_System.predict (self : MirAI_System) (patient_data : PRecord) :
    PRecord × Except PredictError CascadeResult :=
  (preprocessRecord patient_data, MirAI_cascade self (preprocessRecord patient_data))

/-- A predictor that always succeeds with the given probability. -/
def constPredictor (q : ℚ) : Predictor := fun _ => Except.ok q

/-- A store holding only `stage1_pipeline.pkl` (the other 7 files absent). -/
def onlyStage1Store (p : Predictor) : MirAI_System :=
  { stage1_pipeline := some p
    stage2_pipeline := Option.none
    stage3_pipeline := Option.none
    stage1_features := Option.none
    stage2_features := Option.none
    stage3_features := Option.none
    stage1_threshold := Option.none
    stage2_threshold := Option.none }

/-- A store holding the three pipelines as constant predictors and nothing
else. -/
def demoStore (q1 q2 q3 : ℚ) : MirAI_System :=
  { stage1_pipeline := some (constPredictor q1)
    stage2_pipeline := some (constPredictor q2)
    stage3_pipeline := some (constPredictor q3)
    stage1_features := Option.none
    stage2_features := Option.none
    stage3_features := Option.none
    stage1_threshold := Option.none
    stage2_threshold := Option.none }

/-- A record whose only key is `PTAU`, with the explicit value 0. -/
def zeroPtauRec : PRecord :=
  fun k => if k = "PTAU" then some (Value.num 0) else Option.none

/-- A record whose only key is `PTAU`, present with value `None`. -/
def nullPtauRec : PRecord :=
  fun k => if k = "PTAU" then some Value.none else Option.none

/-- A record whose only key is `FAQ`, with the negative value -100. -/
def negFaqRec : PRecord :=
  fun k => if k = "FAQ" then some (Value.num (-100)) else Option.none

/-- The heuristic predictor's output on the spec's fallback scenario
(age=80, faq=10, ecogMem=2, apoe4=2, ptau=0.7). -/
def mockScenarioRes : MockResult :=
  { final_risk_score := 1
    stage1_prob := 4 / 5
    stage2_prob := 9 / 10
    stage3_prob := 1
    stage1_risk := "High"
    stage2_risk := "Elevated"
    stage3_risk := "Elevated"
    top_factors := ["FAQ Score: 10", "APOE4 Count: 2", "pTau-217: 7/10"] }

/-! ## Helper lemmas -/

theorem ratFloor_eq_intFloor (q : ℚ) : (Rat.floor q : ℤ) = ⌊q⌋ := by
  rw [Rat.floor_def', Rat.floor_def]

theorem pyRound_mem (q : ℚ) : pyRound q = ⌊q⌋ ∨ pyRound q = ⌊q⌋ + 1 := by
  simp only [pyRound, ratFloor_eq_intFloor]
  split_ifs <;> simp

theorem preprocessRecord_frame (r : PRecord) (k : String)
    (h1 : k ≠ "PTGENDER") (h2 : k ≠ "APOE4") :
    preprocessRecord r k = r k := by
  simp [preprocessRecord, dictSet, h1, h2]

theorem preprocessRecord_ptgender (r : PRecord) :
    preprocessRecord r "PTGENDER" =
      some (preprocess_gender (dictGet r "PTGENDER" (Value.str "Male"))) := by
  simp [preprocessRecord, dictSet]

theorem preprocessRecord_apoe4 (r : PRecord) :
    preprocessRecord r "APOE4" =
      some (preprocess_apoe4 (dictGet r "APOE4" (Value.num 0))) := by
  simp [preprocessRecord, dictSet, dictGet]

theorem dictGet_preprocessRecord_frame (r : PRecord) (k : String) (d : Value)
    (h1 : k ≠ "PTGENDER") (h2 : k ≠ "APOE4") :
    dictGet (preprocessRecord r) k d = dictGet r k d := by
  simp [dictGet, preprocessRecord_frame r k h1 h2]

theorem dictGet_preprocessRecord_apoe4 (r : PRecord) (d : Value) :
    dictGet (preprocessRecord r) "APOE4" d =
      preprocess_apoe4 (dictGet r "APOE4" (Value.num 0)) := by
  simp [dictGet, preprocessRecord_apoe4 r]

theorem lookup_buildX1 (feats : List String) (pd : PRecord) (f : String)
    (h : f ∈ feats) :
    (buildX1 feats pd).lookup f = some (dictGet pd f (Value.num 0)) := by
  induction feats with
  | nil => cases h
  | cons a t ih =>
    rcases List.mem_cons.mp h with rfl | hmem
    · simp [buildX1]
    · by_cases hfa : f = a
      · subst hfa; simp [buildX1]
      · have hba : (f == a) = false := beq_false_of_ne hfa
        have ht := ih hmem
        simp only [buildX1, List.map] at ht ⊢
        rw [List.lookup_cons, hba]
        exact ht

theorem cascade_ok_elim (self : MirAI_System) (pd : PRecord)
    (res : CascadeResult) (h : MirAI_cascade self pd = Except.ok res) :
    ∃ pred1 p1 pred2 p2 pred3 p3,
      self.stage1_pipeline = some pred1 ∧
      pred1 (buildX1 (self.stage1_features.getD defaultStage1Features) pd) =
        Except.ok p1 ∧
      self.stage2_pipeline = some pred2 ∧
      pred2 (buildX2 p1 pd) = Except.ok p2 ∧
      self.stage3_pipeline = some pred3 ∧
      pred3 (buildX3 p2 pd) = Except.ok p3 ∧
      res = assembleResult pd
        p1 (stageRisk p1 (getThreshold self.stage1_threshold))
        p2 (stageRisk p2 (getThreshold self.stage2_threshold)) p3 := by
  unfold MirAI_cascade at h
  split at h
  · exact Except.noConfusion h
  rename_i pred1 h1
  split at h
  · exact Except.noConfusion h
  rename_i p1 h1p
  split at h
  · exact Except.noConfusion h
  rename_i pred2 h2
  split at h
  · exact Except.noConfusion h
  rename_i p2 h2p
  split at h
  · exact Except.noConfusion h
  rename_i pred3 h3
  split at h
  · exact Except.noConfusion h
  rename_i p3 h3p
  exact ⟨pred1, p1, pred2, p2, pred3, p3, h1, h1p, h2, h2p, h3, h3p,
    (Except.ok.inj h).symm⟩

theorem finalCat_high_iff (p : ℚ) : finalCat p = "High" ↔ 7 / 10 ≤ p := by
  unfold finalCat
  split_ifs with h1 h2 <;> simp_all

theorem finalCat_elevated_iff (p : ℚ) :
    finalCat p = "Elevated" ↔ 2 / 5 ≤ p ∧ p < 7 / 10 := by
  unfold finalCat
  split_ifs with h1 h2 <;> simp_all

theorem finalCat_low_iff (p : ℚ) : finalCat p = "Low" ↔ p < 2 / 5 := by
  unfold finalCat
  split_ifs with h1 h2 <;> simp_all
  linarith

theorem pyInt_intCast (a : ℤ) : pyInt (Value.num (a : ℚ)) = Except.ok a := by
  simp only [pyInt]
  rcases le_or_lt 0 (a : ℚ) with h | h
  · rw [if_pos h, ratFloor_eq_intFloor, Int.floor_intCast]
  · rw [if_neg (not_le.mpr h), ratFloor_eq_intFloor, ← Int.cast_neg,
      Int.floor_intCast, neg_neg]

theorem pyRound_nonneg (q : ℚ) (h : 0 ≤ q) : 0 ≤ pyRound q := by
  have hf : (0 : ℤ) ≤ ⌊q⌋ := Int.floor_nonneg.mpr h
  rcases pyRound_mem q with hm | hm <;> rw [hm] <;> omega

theorem mock_prediction_mockRecord (age apoe4 : ℤ) (faq ecog ptau : ℚ) :
    mock_prediction (mockRecord age faq ecog apoe4 ptau) =
      Except.ok (mockResultOf age faq ecog apoe4 ptau) := by
  simp [mock_prediction, mockRecord, dictGet, pyFloat, pyInt_intCast]

theorem mock_ok_elim (data : PRecord) (res : MockResult)
    (h : mock_prediction data = Except.ok res) :
    ∃ (age : ℤ) (faq ecog : ℚ) (apoe4 : ℤ) (ptau : ℚ),
      pyInt (dictGet data "AGE" (Value.num 65)) = Except.ok age ∧
      pyFloat (dictGet data "FAQ" (Value.num 0)) = Except.ok faq ∧
      pyFloat (dictGet data "EcogPtMem" (Value.num 1)) = Except.ok ecog ∧
      pyInt (dictGet data "APOE4" (Value.num 0)) = Except.ok apoe4 ∧
      pyFloat (dictGet data "PTAU" (Value.num 0)) = Except.ok ptau ∧
      res = mockResultOf age faq ecog apoe4 ptau := by
  unfold mock_prediction at h
  split at h
  · rename_i age faq ecog apoe4 ptau h1 h2 h3 h4 h5
    exact ⟨age, faq, ecog, apoe4, ptau, h1, h2, h3, h4, h5,
      (Except.ok.inj h).symm⟩
  · exact Except.noConfusion h

theorem mockScore_eq (age apoe4 : ℤ) (faq ecog ptau : ℚ) :
    mockScore age faq ecog apoe4 ptau =
      min (pyRound (15 + (if 75 < age then (20 : ℚ) else if 65 < age then 10 else 0)
        + 3 / 2 * faq + 10 * (ecog - 1) + 12 * (apoe4 : ℚ)
        + (if 3 / 5 < ptau then (20 : ℚ) else if 3 / 10 < ptau then 10 else 0))) 100 := by
  simp only [mockScore]
  congr 2
  split_ifs <;> ring

theorem mockScore_nonneg (age apoe4 : ℤ) (faq ecog ptau : ℚ)
    (hfaq : 0 ≤ faq) (hecog : 1 ≤ ecog) (hapoe : 0 ≤ apoe4) :
    0 ≤ mockScore age faq ecog apoe4 ptau := by
  have hapoeQ : (0 : ℚ) ≤ (apoe4 : ℚ) := by exact_mod_cast hapoe
  simp only [mockScore]
  refine le_min (pyRound_nonneg _ ?_) (by norm_num)
  split_ifs <;> linarith

theorem mockScore_le_100 (age apoe4 : ℤ) (faq ecog ptau : ℚ) :
    mockScore age faq ecog apoe4 ptau ≤ 100 := by
  simp only [mockScore]
  exact min_le_right _ _

theorem mockResultOf_prob_bounds (age apoe4 : ℤ) (faq ecog ptau : ℚ)
    (h0 : 0 ≤ mockScore age faq ecog apoe4 ptau) :
    (0 ≤ (mockResultOf age faq ecog apoe4 ptau).stage1_prob ∧
      (mockResultOf age faq ecog apoe4 ptau).stage1_prob ≤ 1) ∧
    (0 ≤ (mockResultOf age faq ecog apoe4 ptau).stage2_prob ∧
      (mockResultOf age faq ecog apoe4 ptau).stage2_prob ≤ 1) ∧
    (0 ≤ (mockResultOf age faq ecog apoe4 ptau).stage3_prob ∧
      (mockResultOf age faq ecog apoe4 ptau).stage3_prob ≤ 1) ∧
    (0 ≤ (mockResultOf age faq ecog apoe4 ptau).final_risk_score ∧
      (mockResultOf age faq ecog apoe4 ptau).final_risk_score ≤ 1) := by
  have h100 := mockScore_le_100 age apoe4 faq ecog ptau
  have hq0 : (0 : ℚ) ≤ (mockScore age faq ecog apoe4 ptau : ℚ) := by
    exact_mod_cast h0
  have hq100 : ((mockScore age faq ecog apoe4 ptau : ℤ) : ℚ) ≤ 100 := by
    exact_mod_cast h100
  simp only [mockResultOf]
  refine ⟨⟨?_, ?_⟩, ⟨?_, ?_⟩, ⟨?_, ?_⟩, ⟨?_, ?_⟩⟩
  · exact div_nonneg (le_min (by linarith) (by norm_num)) (by norm_num)
  · rw [div_le_one (by norm_num)]
    exact le_trans (min_le_right _ _) (by norm_num)
  · exact div_nonneg (le_min (by linarith) (by norm_num)) (by norm_num)
  · rw [div_le_one (by norm_num)]
    exact le_trans (min_le_right _ _) (by norm_num)
  · exact div_nonneg hq0 (by norm_num)
  · rw [div_le_one (by norm_num)]
    linarith
  · exact div_nonneg hq0 (by norm_num)
  · rw [div_le_one (by norm_num)]
    linarith

theorem lookup_buildX3_ptau (p2 : ℚ) (pd : PRecord) :
    (buildX3 p2 pd).lookup "PTAU" = some (dictGet pd "PTAU" (Value.num 0)) :=
  rfl

theorem lookup_buildX3_abeta42 (p2 : ℚ) (pd : PRecord) :
    (buildX3 p2 pd).lookup "ABETA42" =
      some (dictGet pd "ABETA42" (Value.num 0)) :=
  rfl

theorem lookup_buildX3_abeta40 (p2 : ℚ) (pd : PRecord) :
    (buildX3 p2 pd).lookup "ABETA40" =
      some (dictGet pd "ABETA40" (Value.num 0)) :=
  rfl

theorem lookup_buildX3_nfl (p2 : ℚ) (pd : PRecord) :
    (buildX3 p2 pd).lookup "NFL" = some (dictGet pd "NFL" (Value.num 0)) :=
  rfl

/-! ## Claims -/

/-- C1: For every record processed by `MirAI_System.predict`, the final risk
category is "High" iff stage3_prob ≥ 0.7, "Elevated" iff 0.4 ≤ stage3_prob
< 0.7, and "Low" iff stage3_prob < 0.4 (lower boundaries inclusive); this
holds for every artifact store, so it is independent of any stage-3
threshold artifact; and the reported stage3_risk equals
final_risk_category. -/
theorem C1_final_categorization (self : MirAI_System) (r : PRecord)
    (res : CascadeResult) (h : (self.predict r).2 = Except.ok res) :
    (res.final_risk_category = "High" ↔ 7 / 10 ≤ res.stage3_prob) ∧
    (res.final_risk_category = "Elevated" ↔
      2 / 5 ≤ res.stage3_prob ∧ res.stage3_prob < 7 / 10) ∧
    (res.final_risk_category = "Low" ↔ res.stage3_prob < 2 / 5) ∧
    res.stage3_risk = res.final_risk_category := by
  obtain ⟨pred1, p1, pred2, p2, pred3, p3, -, -, -, -, -, -, rfl⟩ :=
    cascade_ok_elim self (preprocessRecord r) res h
  exact ⟨finalCat_high_iff p3, finalCat_elevated_iff p3, finalCat_low_iff p3, rfl⟩

/-- Witness for C1 at a concrete store whose three predictors return 1/2 on
the empty record. -/
theorem C1_final_categorization_witness :
    ((demoStore (1/2) (1/2) (1/2)).predict emptyRec).2 =
      Except.ok (assembleResult (preprocessRecord emptyRec) (1/2) "Elevated"
        (1/2) "Elevated" (1/2)) ∧
    ((assembleResult (preprocessRecord emptyRec) (1/2) "Elevated"
        (1/2) "Elevated" (1/2)).final_risk_category = "Elevated" ↔
      2 / 5 ≤ (assembleResult (preprocessRecord emptyRec) (1/2) "Elevated"
        (1/2) "Elevated" (1/2)).stage3_prob ∧
      (assembleResult (preprocessRecord emptyRec) (1/2) "Elevated"
        (1/2) "Elevated" (1/2)).stage3_prob < 7 / 10) := by
  have h : ((demoStore (1/2) (1/2) (1/2)).predict emptyRec).2 =
      Except.ok (assembleResult (preprocessRecord emptyRec) (1/2) "Elevated"
        (1/2) "Elevated" (1/2)) := by decide
  exact ⟨h, (C1_final_categorization _ _ _ h).2.1⟩

/-- C6 counterexample: on the genotype string "444" both normalizers return
3, which is outside the range 0–2. -/
theorem C6_counterexample :
    preprocess_apoe4 (Value.str "444") = Value.num 3 ∧
    parse_apoe4 (Value.str "444") = Except.ok 3 ∧ ¬((3 : ℚ) ≤ 2) := by
  decide

/-- C6 (amended): on any genotype string both normalizers return the count
of `'4'` characters; for a two-allele genotype string of the shape `a/b`
that count is at most 2 (and it is a natural number, hence at least 0). -/
theorem C6_apoe4_count :
    (∀ s : String,
      preprocess_apoe4 (Value.str s) = Value.num (countChar s '4') ∧
      parse_apoe4 (Value.str s) = Except.ok (countChar s '4')) ∧
    (∀ a b : Char, countChar (String.mk [a, '/', b]) '4' ≤ 2) := by
  constructor
  · intro s
    refine ⟨rfl, ?_⟩
    by_cases h : s = ""
    · subst h; decide
    · simp [parse_apoe4, Value.truthy, h]
  · intro a b
    simp only [countChar, List.count_cons, List.count_nil]
    split_ifs <;> simp_all

/-- C7: `preprocess_gender` is idempotent on every value that is a string,
a number or null, and `preprocess_apoe4` returns an already-numeric input
unchanged. -/
theorem C7_normalizer_idempotence :
    (∀ v : Value,
      preprocess_gender (preprocess_gender v) = preprocess_gender v) ∧
    (∀ q : ℚ, preprocess_apoe4 (Value.num q) = Value.num q) := by
  constructor
  · intro v
    cases v with
    | none => rfl
    | num q => rfl
    | str s =>
      simp only [preprocess_gender]
      split_ifs <;> rfl
  · intro q
    by_cases h : q = 0 <;> simp [preprocess_apoe4, Value.truthy, h]

/-- C8: `load_artifacts` fails with the no-artifacts error iff none of the
8 named artifact files exists; if at least one is present it succeeds. -/
theorem C8_load_artifacts (dir : MirAI_System) :
    (load_artifacts dir = Except.error "No artifacts found" ↔
      (dir.stage1_pipeline = Option.none ∧ dir.stage2_pipeline = Option.none ∧
       dir.stage3_pipeline = Option.none ∧ dir.stage1_features = Option.none ∧
       dir.stage2_features = Option.none ∧ dir.stage3_features = Option.none ∧
       dir.stage1_threshold = Option.none ∧
       dir.stage2_threshold = Option.none)) ∧
    (¬(dir.stage1_pipeline = Option.none ∧ dir.stage2_pipeline = Option.none ∧
       dir.stage3_pipeline = Option.none ∧ dir.stage1_features = Option.none ∧
       dir.stage2_features = Option.none ∧ dir.stage3_features = Option.none ∧
       dir.stage1_threshold = Option.none ∧
       dir.stage2_threshold = Option.none) →
      load_artifacts dir = Except.ok dir) := by
  have key : dir.isEmpty = true ↔
      (dir.stage1_pipeline = Option.none ∧ dir.stage2_pipeline = Option.none ∧
       dir.stage3_pipeline = Option.none ∧ dir.stage1_features = Option.none ∧
       dir.stage2_features = Option.none ∧ dir.stage3_features = Option.none ∧
       dir.stage1_threshold = Option.none ∧
       dir.stage2_threshold = Option.none) := by
    simp only [MirAI_System.isEmpty, Bool.and_eq_true,
      Option.isNone_iff_eq_none]
    tauto
  by_cases he : dir.isEmpty = true
  · have hload : load_artifacts dir = Except.error "No artifacts found" := by
      simp [load_artifacts, he]
    exact ⟨iff_of_true hload (key.mp he), fun hn => absurd (key.mp he) hn⟩
  · have hload : load_artifacts dir = Except.ok dir := by
      simp [load_artifacts, he]
    refine ⟨iff_of_false ?_ (fun hc => he (key.mpr hc)), fun _ => hload⟩
    rw [hload]
    exact fun hc => Except.noConfusion hc

/-- Witness for C8: a directory holding only `stage1_pipeline.pkl` loads
successfully. -/
theorem C8_load_artifacts_witness :
    load_artifacts (onlyStage1Store (constPredictor 0)) =
      Except.ok (onlyStage1Store (constPredictor 0)) :=
  (C8_load_artifacts _).2 (by simp [onlyStage1Store])

/-- C9: every error raised by `predict` identifies a failing stage in 1..3
(and, the result being an `Except`, no partial result is returned); in
particular with only `stage1_pipeline` loaded and a stage-1 predictor that
succeeds, `predict` fails with the missing-predictor error for stage 2. -/
theorem C9_stage_failure :
    (∀ (self : MirAI_System) (r : PRecord) (e : PredictError),
      (self.predict r).2 = Except.error e →
      1 ≤ e.stage ∧ e.stage ≤ 3) ∧
    (∀ (p : Predictor) (r : PRecord),
      (∀ X, ∃ q, p X = Except.ok q) →
      ((onlyStage1Store p).predict r).2 =
        Except.error (PredictError.missingPredictor 2)) := by
  constructor
  · intro self r e h
    have h' : MirAI_cascade self (preprocessRecord r) = Except.error e := h
    unfold MirAI_cascade at h'
    split at h'
    · cases Except.error.inj h'; decide
    split at h'
    · cases Except.error.inj h'; decide
    split at h'
    · cases Except.error.inj h'; decide
    split at h'
    · cases Except.error.inj h'; decide
    split at h'
    · cases Except.error.inj h'; decide
    split at h'
    · cases Except.error.inj h'; decide
    exact Except.noConfusion h'
  · intro p r htotal
    obtain ⟨q, hq⟩ := htotal (buildX1 defaultStage1Features (preprocessRecord r))
    show MirAI_cascade (onlyStage1Store p) (preprocessRecord r) = _
    simp [MirAI_cascade, onlyStage1Store, hq]

/-- Witness for C9 at a concrete always-succeeding stage-1 predictor. -/
theorem C9_stage_failure_witness :
    ((onlyStage1Store (constPredictor 0)).predict emptyRec).2 =
      Except.error (PredictError.missingPredictor 2) ∧
    1 ≤ (PredictError.missingPredictor 2).stage ∧
    (PredictError.missingPredictor 2).stage ≤ 3 := by
  have h2 := C9_stage_failure.2 (constPredictor 0) emptyRec (fun X => ⟨0, rfl⟩)
  exact ⟨h2, C9_stage_failure.1 (onlyStage1Store (constPredictor 0)) emptyRec _ h2⟩

/-- C10: `predict` mutates the caller's record only at `PTGENDER` and
`APOE4`, overwriting them with the normalized values, and inserting
`PTGENDER := 1` and `APOE4 := 0` when they were absent; every other key is
untouched. -/
theorem C10_predict_mutation (self : MirAI_System) (r : PRecord) :
    (∀ k : String, k ≠ "PTGENDER" → k ≠ "APOE4" →
      (self.predict r).1 k = r k) ∧
    (self.predict r).1 "PTGENDER" =
      some (preprocess_gender (dictGet r "PTGENDER" (Value.str "Male"))) ∧
    (self.predict r).1 "APOE4" =
      some (preprocess_apoe4 (dictGet r "APOE4" (Value.num 0))) ∧
    (r "PTGENDER" = Option.none →
      (self.predict r).1 "PTGENDER" = some (Value.num 1)) ∧
    (r "APOE4" = Option.none →
      (self.predict r).1 "APOE4" = some (Value.num 0)) := by
  refine ⟨fun k h1 h2 => preprocessRecord_frame r k h1 h2,
    preprocessRecord_ptgender r, preprocessRecord_apoe4 r, ?_, ?_⟩
  · intro hn
    show preprocessRecord r "PTGENDER" = some (Value.num 1)
    rw [preprocessRecord_ptgender r]
    simp only [dictGet, hn, Option.getD_none]
    decide
  · intro hn
    show preprocessRecord r "APOE4" = some (Value.num 0)
    rw [preprocessRecord_apoe4 r]
    simp only [dictGet, hn, Option.getD_none]
    decide

/-- Witness for C10 at the empty record and a concrete store. -/
theorem C10_predict_mutation_witness :
    ((demoStore (1/2) (1/2) (1/2)).predict emptyRec).1 "FAQ" = emptyRec "FAQ" ∧
    ((demoStore (1/2) (1/2) (1/2)).predict emptyRec).1 "PTGENDER" =
      some (Value.num 1) ∧
    ((demoStore (1/2) (1/2) (1/2)).predict emptyRec).1 "APOE4" =
      some (Value.num 0) := by
  obtain ⟨hframe, -, -, hg, ha⟩ :=
    C10_predict_mutation (demoStore (1/2) (1/2) (1/2)) emptyRec
  exact ⟨hframe "FAQ" (by decide) (by decide), hg rfl, ha rfl⟩

/-- C2: the fallback heuristic computes score = 15 + age bonus (+20 if
age>75, +10 if 65<age≤75) + 1.5·FAQ + 10·(EcogPtMem−1) + 12·APOE4 + pTau
bonus (+20 if ptau>0.6, +10 if 0.3<ptau≤0.6), then min(round(sum), 100)/100;
and on age=80, faq=10, ecogMem=2, apoe4=2, ptau=0.7 it returns
final_risk_score = 1.0, stage1_risk "High", stage2_risk "Elevated",
stage3_risk "Elevated". -/
theorem C2_mock_formula :
    (∀ (age apoe4 : ℤ) (faq ecog ptau : ℚ),
      mock_prediction (mockRecord age faq ecog apoe4 ptau) =
        Except.ok (mockResultOf age faq ecog apoe4 ptau) ∧
      (mockResultOf age faq ecog apoe4 ptau).final_risk_score =
        ((min (pyRound (15 +
            (if 75 < age then (20 : ℚ) else if 65 < age then 10 else 0) +
            3 / 2 * faq + 10 * (ecog - 1) + 12 * (apoe4 : ℚ) +
            (if 3 / 5 < ptau then (20 : ℚ)
             else if 3 / 10 < ptau then 10 else 0))) 100 : ℤ) : ℚ) / 100) ∧
    (mock_prediction (mockRecord 80 10 2 2 (7 / 10)) =
        Except.ok mockScenarioRes ∧
      mockScenarioRes.final_risk_score = 1 ∧
      mockScenarioRes.stage1_risk = "High" ∧
      mockScenarioRes.stage2_risk = "Elevated" ∧
      mockScenarioRes.stage3_risk = "Elevated") := by
  constructor
  · intro age apoe4 faq ecog ptau
    refine ⟨mock_prediction_mockRecord age apoe4 faq ecog ptau, ?_⟩
    show ((mockScore age faq ecog apoe4 ptau : ℤ) : ℚ) / 100 = _
    rw [mockScore_eq]
  · exact ⟨by decide, rfl, rfl, rfl, rfl⟩

/-- C4 counterexample: the fallback heuristic with the explicit input
FAQ = −100 (all other fields absent) yields stage1_prob = −1.08 and
final_risk_score = −1.35, both outside [0, 1], so the unconditional claim
for the fallback is false. -/
theorem C4_counterexample :
    mock_prediction negFaqRec = Except.ok (mockResultOf 65 (-100) 1 0 0) ∧
    (mockResultOf 65 (-100) 1 0 0).stage1_prob = -27 / 25 ∧
    ¬(0 ≤ (mockResultOf 65 (-100) 1 0 0).stage1_prob) ∧
    (mockResultOf 65 (-100) 1 0 0).final_risk_score = -27 / 20 ∧
    ¬(0 ≤ (mockResultOf 65 (-100) 1 0 0).final_risk_score) := by
  decide

/-- C4 (amended): for the real cascade engine, under the hypothesis that
every loaded stage predictor returns probabilities in [0,1], the three
stage probabilities of any successful prediction lie in [0,1]; for the
fallback heuristic predictor the probabilities (and final score) lie in
[0,1] provided FAQ ≥ 0, EcogPtMem ≥ 1 and APOE4 ≥ 0 (the upper bound holds
unconditionally, but negative contributions can push the score below 0, as
the counterexample shows). -/
theorem C4_probabilities_unit_interval :
    (∀ (self : MirAI_System) (r : PRecord) (res : CascadeResult),
      (∀ (p : Predictor) (X : List (String × Value)) (q : ℚ),
        self.stage1_pipeline = some p → p X = Except.ok q → 0 ≤ q ∧ q ≤ 1) →
      (∀ (p : Predictor) (X : List (String × Value)) (q : ℚ),
        self.stage2_pipeline = some p → p X = Except.ok q → 0 ≤ q ∧ q ≤ 1) →
      (∀ (p : Predictor) (X : List (String × Value)) (q : ℚ),
        self.stage3_pipeline = some p → p X = Except.ok q → 0 ≤ q ∧ q ≤ 1) →
      (self.predict r).2 = Except.ok res →
      (0 ≤ res.stage1_prob ∧ res.stage1_prob ≤ 1) ∧
      (0 ≤ res.stage2_prob ∧ res.stage2_prob ≤ 1) ∧
      (0 ≤ res.stage3_prob ∧ res.stage3_prob ≤ 1)) ∧
    (∀ (age apoe4 : ℤ) (faq ecog ptau : ℚ) (res : MockResult),
      0 ≤ faq → 1 ≤ ecog → 0 ≤ apoe4 →
      mock_prediction (mockRecord age faq ecog apoe4 ptau) = Except.ok res →
      (0 ≤ res.stage1_prob ∧ res.stage1_prob ≤ 1) ∧
      (0 ≤ res.stage2_prob ∧ res.stage2_prob ≤ 1) ∧
      (0 ≤ res.stage3_prob ∧ res.stage3_prob ≤ 1) ∧
      (0 ≤ res.final_risk_score ∧ res.final_risk_score ≤ 1)) := by
  constructor
  · intro self r res hb1 hb2 hb3 h
    obtain ⟨pred1, p1, pred2, p2, pred3, p3, h1, h1p, h2, h2p, h3, h3p, rfl⟩ :=
      cascade_ok_elim self (preprocessRecord r) res h
    exact ⟨hb1 pred1 _ p1 h1 h1p, hb2 pred2 _ p2 h2 h2p,
      hb3 pred3 _ p3 h3 h3p⟩
  · intro age apoe4 faq ecog ptau res hfaq hecog hapoe h
    rw [mock_prediction_mockRecord] at h
    cases Except.ok.inj h
    exact mockResultOf_prob_bounds age apoe4 faq ecog ptau
      (mockScore_nonneg age apoe4 faq ecog ptau hfaq hecog hapoe)

/-- Witness for C4, applying the real-engine half at a concrete store of
constant 1/2 predictors and the fallback half at the spec's scenario. -/
theorem C4_probabilities_witness :
    (0 ≤ (assembleResult (preprocessRecord emptyRec) (1/2) "Elevated"
        (1/2) "Elevated" (1/2)).stage1_prob ∧
      (assembleResult (preprocessRecord emptyRec) (1/2) "Elevated"
        (1/2) "Elevated" (1/2)).stage1_prob ≤ 1) ∧
    (0 ≤ mockScenarioRes.final_risk_score ∧
      mockScenarioRes.final_risk_score ≤ 1) := by
  have hreal := C4_probabilities_unit_interval.1 (demoStore (1/2) (1/2) (1/2))
    emptyRec
    (assembleResult (preprocessRecord emptyRec) (1/2) "Elevated"
      (1/2) "Elevated" (1/2))
    (fun p X q hp hq => by
      cases Option.some.inj hp; cases Except.ok.inj hq; norm_num)
    (fun p X q hp hq => by
      cases Option.some.inj hp; cases Except.ok.inj hq; norm_num)
    (fun p X q hp hq => by
      cases Option.some.inj hp; cases Except.ok.inj hq; norm_num)
    (by decide)
  have hmock := C4_probabilities_unit_interval.2 80 2 10 2 (7/10)
    mockScenarioRes (by norm_num) (by norm_num) (by norm_num) (by decide)
  exact ⟨hreal.1, hmock.2.2.2⟩

/-- C3 counterexample: a Stage 1 feature absent from the record is not
always defaulted to 0 — an absent PTGENDER is first defaulted to "Male" and
normalized, so the Stage 1 feature vector carries 1, not 0. -/
theorem C3_counterexample :
    (buildX1 defaultStage1Features (preprocessRecord emptyRec)).lookup
        "PTGENDER" = some (Value.num 1) ∧
    Value.num 1 ≠ Value.num 0 := by
  decide

/-- C3 (amended): absent numeric fields default to 0 in the stage feature
vectors, except PTGENDER, which when absent is defaulted to "Male" and
normalized to 1; the optional biomarkers default to 0 when absent; a field
present with a null value is passed through as null rather than defaulted;
and absence never raises — with total predictors, `predict` succeeds on
every record. -/
theorem C3_missing_field_defaults :
    (∀ (r : PRecord) (f : String),
      f ∈ ["AGE", "PTEDUCAT", "FAQ", "EcogPtMem", "EcogPtTotal"] →
      r f = Option.none →
      (buildX1 defaultStage1Features (preprocessRecord r)).lookup f =
        some (Value.num 0)) ∧
    (∀ r : PRecord, r "PTGENDER" = Option.none →
      (buildX1 defaultStage1Features (preprocessRecord r)).lookup
        "PTGENDER" = some (Value.num 1)) ∧
    (∀ (r : PRecord) (p2 : ℚ),
      (r "PTAU" = Option.none →
        (buildX3 p2 (preprocessRecord r)).lookup "PTAU" =
          some (Value.num 0)) ∧
      (r "ABETA42" = Option.none →
        (buildX3 p2 (preprocessRecord r)).lookup "ABETA42" =
          some (Value.num 0)) ∧
      (r "ABETA40" = Option.none →
        (buildX3 p2 (preprocessRecord r)).lookup "ABETA40" =
          some (Value.num 0)) ∧
      (r "NFL" = Option.none →
        (buildX3 p2 (preprocessRecord r)).lookup "NFL" =
          some (Value.num 0))) ∧
    (∀ (r : PRecord) (p2 : ℚ), r "PTAU" = some Value.none →
      (buildX3 p2 (preprocessRecord r)).lookup "PTAU" = some Value.none) ∧
    (∀ (self : MirAI_System) (r : PRecord) (p1 p2 p3 : Predictor),
      self.stage1_pipeline = some p1 → self.stage2_pipeline = some p2 →
      self.stage3_pipeline = some p3 →
      (∀ X, ∃ q, p1 X = Except.ok q) → (∀ X, ∃ q, p2 X = Except.ok q) →
      (∀ X, ∃ q, p3 X = Except.ok q) →
      ∃ res, (self.predict r).2 = Except.ok res) := by
  refine ⟨?_, ?_, ?_, ?_, ?_⟩
  · intro r f hf hn
    fin_cases hf <;>
      rw [lookup_buildX1 defaultStage1Features _ _ (by decide),
        dictGet_preprocessRecord_frame r _ _ (by decide) (by decide)] <;>
      simp [dictGet, hn]
  · intro r hn
    rw [lookup_buildX1 defaultStage1Features _ _ (by decide)]
    rw [show dictGet (preprocessRecord r) "PTGENDER" (Value.num 0) =
        preprocess_gender (dictGet r "PTGENDER" (Value.str "Male")) from by
      simp [dictGet, preprocessRecord_ptgender r]]
    rw [show dictGet r "PTGENDER" (Value.str "Male") = Value.str "Male" from by
      simp [dictGet, hn]]
    decide
  · intro r p2
    refine ⟨?_, ?_, ?_, ?_⟩ <;> intro hn
    · rw [lookup_buildX3_ptau,
        dictGet_preprocessRecord_frame r _ _ (by decide) (by decide)]
      simp [dictGet, hn]
    · rw [lookup_buildX3_abeta42,
        dictGet_preprocessRecord_frame r _ _ (by decide) (by decide)]
      simp [dictGet, hn]
    · rw [lookup_buildX3_abeta40,
        dictGet_preprocessRecord_frame r _ _ (by decide) (by decide)]
      simp [dictGet, hn]
    · rw [lookup_buildX3_nfl,
        dictGet_preprocessRecord_frame r _ _ (by decide) (by decide)]
      simp [dictGet, hn]
  · intro r p2 hn
    rw [lookup_buildX3_ptau,
      dictGet_preprocessRecord_frame r _ _ (by decide) (by decide)]
    simp [dictGet, hn]
  · intro self r p1 p2 p3 hp1 hp2 hp3 h1t h2t h3t
    obtain ⟨q1, hq1⟩ :=
      h1t (buildX1 (self.stage1_features.getD defaultStage1Features)
        (preprocessRecord r))
    obtain ⟨q2, hq2⟩ := h2t (buildX2 q1 (preprocessRecord r))
    obtain ⟨q3, hq3⟩ := h3t (buildX3 q2 (preprocessRecord r))
    refine ⟨assembleResult (preprocessRecord r)
      q1 (stageRisk q1 (getThreshold self.stage1_threshold))
      q2 (stageRisk q2 (getThreshold self.stage2_threshold)) q3, ?_⟩
    show MirAI_cascade self (preprocessRecord r) = _
    simp only [MirAI_cascade, hp1, hp2, hp3, hq1, hq2, hq3]

/-- Witness for C3 at concrete records and a concrete store. -/
theorem C3_missing_field_defaults_witness :
    (buildX1 defaultStage1Features (preprocessRecord emptyRec)).lookup "FAQ" =
      some (Value.num 0) ∧
    (buildX1 defaultStage1Features (preprocessRecord emptyRec)).lookup
      "PTGENDER" = some (Value.num 1) ∧
    (buildX3 0 (preprocessRecord emptyRec)).lookup "PTAU" =
      some (Value.num 0) ∧
    (buildX3 0 (preprocessRecord nullPtauRec)).lookup "PTAU" =
      some Value.none ∧
    ∃ res, ((demoStore (1/2) (1/2) (1/2)).predict emptyRec).2 =
      Except.ok res := by
  obtain ⟨ha, hb, hc, hd, he⟩ := C3_missing_field_defaults
  exact ⟨ha emptyRec "FAQ" (by decide) rfl, hb emptyRec rfl,
    (hc emptyRec 0).1 rfl, hd nullPtauRec 0 (by decide),
    he (demoStore (1/2) (1/2) (1/2)) emptyRec _ _ _ rfl rfl rfl
      (fun X => ⟨1/2, rfl⟩) (fun X => ⟨1/2, rfl⟩) (fun X => ⟨1/2, rfl⟩)⟩

/-- C5 counterexample: the fallback heuristic shows the "Not provided"
sentinel for pTau even when the request explicitly supplied the value 0, so
"sentinel iff absent" is false. -/
theorem C5_counterexample :
    zeroPtauRec "PTAU" = some (Value.num 0) ∧
    mock_prediction zeroPtauRec = Except.ok (mockResultOf 65 0 1 0 0) ∧
    (mockResultOf 65 0 1 0 0).top_factors.get? 2 =
      some "pTau-217: Not provided" := by
  decide

/-- C5 (amended): top_factors always has exactly 3 entries in fixed order
(FAQ, APOE4, pTau).  In the real engine the FAQ and pTau entries show their
sentinel exactly on absent keys and otherwise display the stored value
(an explicit 0 is shown as 0), while the APOE4 entry always shows the
normalized allele count (0 when absent — never a sentinel).  In the
fallback, the pTau entry shows "Not provided" whenever the defaulted pTau
value is not positive, including an explicitly supplied 0. -/
theorem C5_top_factors :
    (∀ (self : MirAI_System) (r : PRecord) (res : CascadeResult),
      (self.predict r).2 = Except.ok res →
      res.top_factors.length = 3 ∧
      (r "FAQ" = Option.none →
        res.top_factors.get? 0 = some "FAQ Score: N/A") ∧
      (∀ v, r "FAQ" = some v →
        res.top_factors.get? 0 = some ("FAQ Score: " ++ v.display)) ∧
      res.top_factors.get? 1 =
        some ("APOE4 Count: " ++
          (preprocess_apoe4 (dictGet r "APOE4" (Value.num 0))).display) ∧
      (r "APOE4" = Option.none →
        res.top_factors.get? 1 = some "APOE4 Count: 0") ∧
      (r "PTAU" = Option.none →
        res.top_factors.get? 2 = some "pTau-217: Not provided") ∧
      (∀ v, r "PTAU" = some v →
        res.top_factors.get? 2 = some ("pTau-217: " ++ v.display))) ∧
    (∀ (data : PRecord) (res : MockResult),
      mock_prediction data = Except.ok res →
      res.top_factors.length = 3 ∧
      (data "PTAU" = some (Value.num 0) →
        res.top_factors.get? 2 = some "pTau-217: Not provided")) := by
  constructor
  · intro self r res h
    obtain ⟨pred1, p1, pred2, p2, pred3, p3, -, -, -, -, -, -, rfl⟩ :=
      cascade_ok_elim self (preprocessRecord r) res h
    refine ⟨rfl, ?_, ?_, ?_, ?_, ?_, ?_⟩
    · intro hn
      show some ("FAQ Score: " ++
        (dictGet (preprocessRecord r) "FAQ" (Value.str "N/A")).display) = _
      rw [dictGet_preprocessRecord_frame r _ _ (by decide) (by decide),
        show dictGet r "FAQ" (Value.str "N/A") = Value.str "N/A" from by
          simp [dictGet, hn]]
      decide
    · intro v hv
      show some ("FAQ Score: " ++
        (dictGet (preprocessRecord r) "FAQ" (Value.str "N/A")).display) = _
      rw [dictGet_preprocessRecord_frame r _ _ (by decide) (by decide),
        show dictGet r "FAQ" (Value.str "N/A") = v from by simp [dictGet, hv]]
    · show some ("APOE4 Count: " ++
        (dictGet (preprocessRecord r) "APOE4" (Value.num 0)).display) = _
      rw [dictGet_preprocessRecord_apoe4 r]
    · intro hn
      show some ("APOE4 Count: " ++
        (dictGet (preprocessRecord r) "APOE4" (Value.num 0)).display) = _
      rw [dictGet_preprocessRecord_apoe4 r,
        show dictGet r "APOE4" (Value.num 0) = Value.num 0 from by
          simp [dictGet, hn]]
      decide
    · intro hn
      show some ("pTau-217: " ++
        (dictGet (preprocessRecord r) "PTAU" (Value.str "Not provided")).display) = _
      rw [dictGet_preprocessRecord_frame r _ _ (by decide) (by decide),
        show dictGet r "PTAU" (Value.str "Not provided") =
            Value.str "Not provided" from by simp [dictGet, hn]]
      decide
    · intro v hv
      show some ("pTau-217: " ++
        (dictGet (preprocessRecord r) "PTAU" (Value.str "Not provided")).display) = _
      rw [dictGet_preprocessRecord_frame r _ _ (by decide) (by decide),
        show dictGet r "PTAU" (Value.str "Not provided") = v from by
          simp [dictGet, hv]]
  · intro data res h
    obtain ⟨age, faq, ecog, apoe4, ptau, -, -, -, -, h5, rfl⟩ :=
      mock_ok_elim data res h
    refine ⟨rfl, ?_⟩
    intro hz
    have hd : dictGet data "PTAU" (Value.num 0) = Value.num 0 := by
      simp [dictGet, hz]
    rw [hd] at h5
    have hp : ptau = 0 := (Except.ok.inj h5).symm
    subst hp
    show some ("pTau-217: " ++ (if 0 < (0 : ℚ) then dispQ 0
      else "Not provided")) = some "pTau-217: Not provided"
    rw [if_neg (by norm_num)]
    decide

/-- Witness for C5 at a concrete store, the empty record, and the
explicit-zero pTau record. -/
theorem C5_top_factors_witness :
    (assembleResult (preprocessRecord emptyRec) (1/2) "Elevated"
      (1/2) "Elevated" (1/2)).top_factors.get? 0 = some "FAQ Score: N/A" ∧
    (mockResultOf 65 0 1 0 0).top_factors.get? 2 =
      some "pTau-217: Not provided" := by
  have hreal := (C5_top_factors.1 (demoStore (1/2) (1/2) (1/2)) emptyRec
    (assembleResult (preprocessRecord emptyRec) (1/2) "Elevated"
      (1/2) "Elevated" (1/2)) (by decide)).2.1 rfl
  have hmock := (C5_top_factors.2 zeroPtauRec (mockResultOf 65 0 1 0 0)
    (by decide)).2 (by decide)
  exact ⟨hreal, hmock⟩
